import Mathlib

/-!
Verification of the PIcoOS concurrent task/resource design against its C
source (src/src/main.c, src/src/core/system.c, and the headers under
src/include).  Machine integers are modelled as `Nat` with explicit
`% 2 ^ 32` (resp. `% 256`) where the C code computes in `uint32_t`
(resp. stores into `uint8_t`).  Each FreeRTOS task body is embedded
either as a state-transformer over the `system.c` globals or as the
finite trace of atomic actions its loop performs.
-/

namespace PIcoOS

/-- Error codes from `os_config.h` (`error_code_t`). -/
inductive error_code_t
  | ERROR_NONE
  | ERROR_FS_INIT_FAILED
  | ERROR_FS_MOUNT_FAILED
  | ERROR_DISPLAY_INIT_FAILED
  | ERROR_AUDIO_INIT_FAILED
  | ERROR_OUT_OF_MEMORY
  | ERROR_HARDWARE_FAILURE
  deriving DecidableEq

/-- SD card status codes from `sd_card.h` (`sd_card_status_t`). -/
inductive sd_card_status_t
  | SD_CARD_OK
  | SD_CARD_ERROR_INIT
  | SD_CARD_ERROR_READ
  | SD_CARD_ERROR_WRITE
  | SD_CARD_ERROR_TIMEOUT
  | SD_CARD_ERROR_INVALID_PARAM
  | SD_CARD_ERROR_NO_CARD
  deriving DecidableEq

/-- Filesystem status codes from `fs_manager.h` (`fs_status_t`). -/
inductive fs_status_t
  | FS_OK
  | FS_ERROR_INIT
  | FS_ERROR_MOUNT
  | FS_ERROR_UNMOUNT
  | FS_ERROR_OPEN
  | FS_ERROR_CLOSE
  | FS_ERROR_READ
  | FS_ERROR_WRITE
  | FS_ERROR_SEEK
  | FS_ERROR_TELL
  | FS_ERROR_TRUNCATE
  | FS_ERROR_MKDIR
  | FS_ERROR_REMOVE
  | FS_ERROR_RENAME
  | FS_ERROR_STAT
  | FS_ERROR_FULL
  | FS_ERROR_NOT_FOUND
  | FS_ERROR_INVALID_NAME
  | FS_ERROR_DENIED
  | FS_ERROR_EXIST
  | FS_ERROR_NOT_READY
  | FS_ERROR_INVALID_PARAM
  | FS_ERROR_NO_PATH
  | FS_ERROR_TIMEOUT
  deriving DecidableEq

/-- Display status codes from `display.h` (`display_status_t`). -/
inductive display_status_t
  | DISPLAY_OK
  | DISPLAY_ERROR_INIT
  | DISPLAY_ERROR_PARAMS
  | DISPLAY_ERROR_COMM
  | DISPLAY_ERROR_TIMEOUT
  | DISPLAY_ERROR_NO_DEVICE
  deriving DecidableEq

/-- Audio status codes from `audio.h` (`audio_status_t`). -/
inductive audio_status_t
  | AUDIO_OK
  | AUDIO_ERROR_INIT
  | AUDIO_ERROR_BUSY
  | AUDIO_ERROR_PARAM
  | AUDIO_ERROR_MEMORY
  | AUDIO_ERROR_FORMAT
  | AUDIO_ERROR_IO
  | AUDIO_ERROR_TIMEOUT
  deriving DecidableEq

/-- Button events from `gpio.h` (`button_event_t`). -/
inductive button_event_t
  | BUTTON_PRESSED
  | BUTTON_RELEASED
  | BUTTON_LONG_PRESS
  deriving DecidableEq

/-- `2 ^ 32`: the modulus of the C `uint32_t` arithmetic. -/
def U32 : Nat := 2 ^ 32

/-- `SYSTEM_TICK_RATE_HZ` from `os_config.h`. -/
def SYSTEM_TICK_RATE_HZ : Nat := 1000

/-- `PERFORMANCE_CHECK_INTERVAL` from `system.c` (ms). -/
def PERFORMANCE_CHECK_INTERVAL : Nat := 1000

/-- `SystemConfig` from `core/system.h`.  The two `uint8_t` flags are used
only as booleans by `system.c`, so they are modelled as `Bool`. -/
structure SystemConfig where
  cpuFrequency : Nat
  criticalHeapThreshold : Nat
  enablePerformanceLogging : Bool
  enableErrorLed : Bool
  deriving DecidableEq

/-- The mutable file-scope globals of `src/src/core/system.c`. -/
structure SysState where
  sysConfig : SystemConfig
  currentError : error_code_t
  systemUptime : Nat
  cpuUtilization : Nat
  freeHeapSize : Nat
  lastPerformanceCheck : Nat
  deriving DecidableEq

/-- The globals of `system.c` after `system_init`'s `memcpy` of the caller's
config: C statics are zero-initialised, so every numeric field starts at 0
and `currentError` starts at `ERROR_NONE`. -/
def initState (config : SystemConfig) : SysState :=
  { sysConfig := config
    currentError := error_code_t.ERROR_NONE
    systemUptime := 0
    cpuUtilization := 0
    freeHeapSize := 0
    lastPerformanceCheck := 0 }

/-- One `TaskStatus_t` record as returned by `uxTaskGetSystemState`. -/
structure TaskStatus_t where
  pcTaskName : String
  ulRunTimeCounter : Nat
  deriving DecidableEq

/-- The environment `calculate_cpu_usage` samples from FreeRTOS: whether
`pvPortMalloc` succeeded, the task status array, and `ulTotalRunTime`. -/
structure CpuEnv where
  allocOk : Bool
  tasks : List TaskStatus_t
  ulTotalRunTime : Nat
  deriving DecidableEq

/-- The `totalExecutionTime` accumulation loop of `calculate_cpu_usage`
(computed by the C code and then never used). -/
def totalExecutionTime (tasks : List TaskStatus_t) : Nat :=
  List.foldl (fun acc t => (acc + t.ulRunTimeCounter) % U32) 0 tasks

/-- The search loop of `calculate_cpu_usage`: scan for the first task named
"IDLE"; on finding it compute
`utilization = 100 - ((idleTime * 100) / ulTotalRunTime)` in `uint32_t`
arithmetic (the multiply wraps at `2 ^ 32`, the subtraction wraps at
`2 ^ 32`) and store it into the `uint8_t` local (`% 256`); `utilization`
stays 0 when no "IDLE" entry exists. -/
def idleUtilization (ulTotalRunTime : Nat) : List TaskStatus_t → Nat
  | [] => 0
  | t :: rest =>
    if t.pcTaskName = "IDLE" then
      (100 + U32 - t.ulRunTimeCounter * 100 % U32 / ulTotalRunTime) % U32 % 256
    else idleUtilization ulTotalRunTime rest

/-- `calculate_cpu_usage` from `system.c`: returns 0 when the status-array
allocation fails or `ulTotalRunTime` is 0, otherwise the result of the
"IDLE" scan. -/
def calculate_cpu_usage (env : CpuEnv) : Nat :=
  if env.allocOk then
    if env.ulTotalRunTime > 0 then idleUtilization env.ulTotalRunTime env.tasks
    else 0
  else 0

/-- The environment one `system_update` call samples: `xTaskGetTickCount()`,
`xPortGetFreeHeapSize()` and the `calculate_cpu_usage` inputs. -/
structure UpdateEnv where
  tickCount : Nat
  freeHeap : Nat
  cpuEnv : CpuEnv
  deriving DecidableEq

/-- Observable side effects of one `system_update` call: whether the
performance-check branch ran (the `cpuUtilization` recomputation), whether
the stats printf ran, and whether `memory_saving_mode` was invoked. -/
structure UpdateEvents where
  recomputed : Bool
  loggedStats : Bool
  memorySavingFired : Bool
  deriving DecidableEq

/-- `xTaskGetTickCount() / (SYSTEM_TICK_RATE_HZ / 1000)` as a `uint32_t`,
the millisecond time both assignments in `system_update` compute. -/
def msTime (tickCount : Nat) : Nat :=
  tickCount / (SYSTEM_TICK_RATE_HZ / 1000) % U32

/-- `system_update` from `system.c`.  `currentTime - lastPerformanceCheck`
is `uint32_t` subtraction, modelled as `(a + U32 - b) % U32` (both operands
are below `U32` in every reachable state). -/
def system_update (env : UpdateEnv) (s : SysState) : SysState × UpdateEvents :=
  let systemUptime := msTime env.tickCount
  let freeHeapSize := env.freeHeap % U32
  let currentTime := msTime env.tickCount
  if (currentTime + U32 - s.lastPerformanceCheck) % U32 ≥ PERFORMANCE_CHECK_INTERVAL then
    let cpuUtilization := calculate_cpu_usage env.cpuEnv
    ({ s with
        systemUptime := systemUptime
        freeHeapSize := freeHeapSize
        cpuUtilization := cpuUtilization
        lastPerformanceCheck := currentTime },
      { recomputed := true
        loggedStats := s.sysConfig.enablePerformanceLogging
        memorySavingFired := decide (freeHeapSize < s.sysConfig.criticalHeapThreshold) })
  else
    ({ s with systemUptime := systemUptime, freeHeapSize := freeHeapSize },
      { recomputed := false, loggedStats := false, memorySavingFired := false })

/-- `system_set_error` from `system.c`: overwrite `currentError`; the
returned `Bool` records whether `blink_error_led` was invoked (it is called
exactly when `sysConfig.enableErrorLed` is set). -/
def system_set_error (error : error_code_t) (s : SysState) : SysState × Bool :=
  ({ s with currentError := error }, s.sysConfig.enableErrorLed)

/-- `system_get_error` from `system.c`. -/
def system_get_error (s : SysState) : error_code_t :=
  s.currentError

/-- `system_get_uptime` from `system.c`. -/
def system_get_uptime (s : SysState) : Nat :=
  s.systemUptime

/-- `system_get_cpu_usage` from `system.c`. -/
def system_get_cpu_usage (s : SysState) : Nat :=
  s.cpuUtilization

/-- `system_get_free_heap` from `system.c`. -/
def system_get_free_heap (s : SysState) : Nat :=
  s.freeHeapSize

/-- `initialize_clocks` from `system.c`: reads `sysConfig.cpuFrequency`,
substitutes the 125 MHz default when it is 0, and unconditionally returns 1
(success) — the actual clock programming call is left unimplemented. -/
def initialize_clocks (sysConfig : SystemConfig) : Nat :=
  let freq := sysConfig.cpuFrequency
  let _defaulted := if freq = 0 then 125000000 else freq
  1

/-- `system_init` from `system.c`, with the outcome of the clock-programming
step (`initialize_clocks`) passed in as `clocks_result` so that the failure
branch can be analysed: in the shipped source `initialize_clocks` is a stub
that always returns 1, making the branch dead (see
`initialize_clocks_always_succeeds`).  Copies the config into the globals,
then returns -1 when `!initialize_clocks()` (i.e. `clocks_result = 0`),
otherwise performs the cache/prefetch no-ops and returns 0. -/
def system_init (clocks_result : Nat) (config : SystemConfig) (s : SysState) :
    SysState × Int :=
  let s2 := { s with sysConfig := config }
  if clocks_result = 0 then (s2, -1) else (s2, 0)

/-- Run a finite prefix of the `systemTask` service loop: one
`system_update` per supplied environment. -/
def runUpdates (s : SysState) : List UpdateEnv → SysState
  | [] => s
  | env :: rest => runUpdates (system_update env s).1 rest

/-- The per-call event records of a finite prefix of the `systemTask`
service loop. -/
def updateEvents (s : SysState) : List UpdateEnv → List UpdateEvents
  | [] => []
  | env :: rest => (system_update env s).2 :: updateEvents (system_update env s).1 rest

/-- `systemTask` from `main.c`: calls `system_init` and DISCARDS its return
value, then loops calling `system_update` (one call per environment in
`envs`); also returns the number of `system_update` calls executed. -/
def systemTask (clocks_result : Nat) (config : SystemConfig)
    (envs : List UpdateEnv) (s : SysState) : SysState × Nat :=
  let s2 := (system_init clocks_result config s).1
  (runUpdates s2 envs, envs.length)

/-- An operation on the shared `system.c` state, as issued by any task:
a `system_set_error` call or a `system_update` call. -/
inductive SysOp
  | op_set_error (error : error_code_t)
  | op_update (env : UpdateEnv)

/-- Apply one `SysOp` to the shared state. -/
def applyOp (s : SysState) : SysOp → SysState
  | SysOp.op_set_error e => (system_set_error e s).1
  | SysOp.op_update env => (system_update env s).1

/-- Run a sequence of shared-state operations. -/
def runOps (s : SysState) : List SysOp → SysState
  | [] => s
  | op :: rest => runOps (applyOp s op) rest

/-- The argument of the last `system_set_error` call in the sequence, if
any. -/
def lastReported : List SysOp → Option error_code_t
  | [] => none
  | op :: rest =>
    match lastReported rest with
    | some c => some c
    | none =>
      match op with
      | SysOp.op_set_error e => some e
      | _ => none

/-- The three peripheral mutexes created in `main.c`. -/
inductive MutexId
  | sdCardMutex
  | displayMutex
  | audioMutex
  deriving DecidableEq

/-- One atomic step of a `main.c` task body: a semaphore take/give, one of
the service-tick calls, `gui_init`, the `system_init`/`system_update`
calls, a `vTaskDelay`, a `system_set_error`, or `vTaskDelete(NULL)`. -/
inductive Action
  | take (m : MutexId)
  | give (m : MutexId)
  | fs_update
  | gui_update
  | audio_update
  | gui_init_call
  | system_init_call
  | system_update_call
  | sleep (ms : Nat)
  | set_error (error : error_code_t)
  | taskDelete
  deriving DecidableEq

/-- `n` iterations of an infinite service loop's body. -/
def iterate : Nat → List Action → List Action
  | 0, _ => []
  | n + 1, body => body ++ iterate n body

/-- One iteration of the `fsTask` service loop from `main.c`:
take `sdCardMutex`, `fs_update()`, give `sdCardMutex`, delay 50 ms. -/
def fsLoopBody : List Action :=
  [Action.take MutexId.sdCardMutex, Action.fs_update,
   Action.give MutexId.sdCardMutex, Action.sleep 50]

/-- `fsTask` from `main.c`, observed for `n` loop iterations: if
`sd_card_init()` is not `SD_CARD_OK`, report `ERROR_FS_INIT_FAILED` and
delete the task; else if `fs_init()` is not `FS_OK`, report
`ERROR_FS_MOUNT_FAILED` and delete the task; else run the service loop. -/
def fsTask (sdInit : sd_card_status_t) (fsInit : fs_status_t) (n : Nat) :
    List Action :=
  if sdInit ≠ sd_card_status_t.SD_CARD_OK then
    [Action.set_error error_code_t.ERROR_FS_INIT_FAILED, Action.taskDelete]
  else if fsInit ≠ fs_status_t.FS_OK then
    [Action.set_error error_code_t.ERROR_FS_MOUNT_FAILED, Action.taskDelete]
  else iterate n fsLoopBody

/-- One iteration of the `guiTask` service loop from `main.c`. -/
def guiLoopBody : List Action :=
  [Action.take MutexId.displayMutex, Action.gui_update,
   Action.give MutexId.displayMutex, Action.sleep 16]

/-- `guiTask` from `main.c`, observed for `n` loop iterations: if
`display_init()` is not `DISPLAY_OK`, delete the task (no error is
reported); else `gui_init()` then the service loop. -/
def guiTask (displayInit : display_status_t) (n : Nat) : List Action :=
  if displayInit ≠ display_status_t.DISPLAY_OK then [Action.taskDelete]
  else Action.gui_init_call :: iterate n guiLoopBody

/-- One iteration of the `audioTask` service loop from `main.c`. -/
def audioLoopBody : List Action :=
  [Action.take MutexId.audioMutex, Action.audio_update,
   Action.give MutexId.audioMutex, Action.sleep 5]

/-- `audioTask` from `main.c`, observed for `n` loop iterations: if
`audio_init()` is not `AUDIO_OK`, delete the task (no error is reported);
else the service loop. -/
def audioTask (audioInit : audio_status_t) (n : Nat) : List Action :=
  if audioInit ≠ audio_status_t.AUDIO_OK then [Action.taskDelete]
  else iterate n audioLoopBody

/-- One iteration of the `systemTask` service loop from `main.c`. -/
def systemLoopBody : List Action :=
  [Action.system_update_call, Action.sleep 10]

/-- The action trace of `systemTask` from `main.c`, observed for `n` loop
iterations: `system_init` then the service loop; it takes no semaphore. -/
def systemTaskActs (n : Nat) : List Action :=
  Action.system_init_call :: iterate n systemLoopBody

/-- The bring-up outcomes of the four peripherals, as sampled by the tasks
at startup. -/
structure BootEnv where
  sd_card_init_result : sd_card_status_t
  fs_init_result : fs_status_t
  display_init_result : display_status_t
  audio_init_result : audio_status_t

/-- `fsTask` as a function of the whole boot environment: the source task
body consults only `sd_card_init()` and `fs_init()`. -/
def fsTaskRun (benv : BootEnv) (n : Nat) : List Action :=
  fsTask benv.sd_card_init_result benv.fs_init_result n

/-- `guiTask` as a function of the whole boot environment: the source task
body consults only `display_init()`. -/
def guiTaskRun (benv : BootEnv) (n : Nat) : List Action :=
  guiTask benv.display_init_result n

/-- `audioTask` as a function of the whole boot environment: the source
task body consults only `audio_init()`. -/
def audioTaskRun (benv : BootEnv) (n : Nat) : List Action :=
  audioTask benv.audio_init_result n

/-- `systemTask` as a function of the whole boot environment: the source
task body consults none of the peripheral bring-up results. -/
def systemTaskRun (_benv : BootEnv) (n : Nat) : List Action :=
  systemTaskActs n

/-- The fault code after a task trace runs, starting from fault code `e`:
each `set_error` action overwrites it (`system_set_error` semantics). -/
def errorAfter (e : error_code_t) : List Action → error_code_t
  | [] => e
  | Action.set_error e2 :: rest => errorAfter e2 rest
  | _ :: rest => errorAfter e rest

/-- Effect of one action on the multiset of mutexes the task holds. -/
def lockStep (held : List MutexId) : Action → List MutexId
  | Action.take m => m :: held
  | Action.give m => held.erase m
  | _ => held

/-- The mutexes held after executing a list of actions. -/
def heldAfter (held : List MutexId) : List Action → List MutexId
  | [] => held
  | a :: rest => heldAfter (lockStep held a) rest

/-- The largest number of mutexes held simultaneously at any point while
executing a list of actions (the initial point included). -/
def maxHeld (held : List MutexId) : List Action → Nat
  | [] => held.length
  | a :: rest => max held.length (maxHeld (lockStep held a) rest)

/-- `true` unless the action is a `sleep` reached while mutexes are still
held. -/
def sleepOk (held : List MutexId) : Action → Bool
  | Action.sleep _ => held.isEmpty
  | _ => true

/-- `true` iff at every `sleep` action of the list the task holds no
mutex. -/
def sleepsClear (held : List MutexId) : List Action → Bool
  | [] => true
  | a :: rest => sleepOk held a && sleepsClear (lockStep held a) rest

/-- The GUI handler entry points of `gui_manager.h`, one constructor per
function the button bridge can invoke. -/
inductive HandlerCall
  | gui_handle_button_press (button_id : Nat)
  | gui_handle_button_release (button_id : Nat)
  | gui_handle_button_long_press (button_id : Nat)
  deriving DecidableEq

/-- `buttonCallback` from `main.c`: the if/else-if chain mapping one button
event to the list of GUI handler calls it performs. -/
def buttonCallback (button_id : Nat) (event : button_event_t) :
    List HandlerCall :=
  if event = button_event_t.BUTTON_PRESSED then
    [HandlerCall.gui_handle_button_press button_id]
  else if event = button_event_t.BUTTON_RELEASED then
    [HandlerCall.gui_handle_button_release button_id]
  else if event = button_event_t.BUTTON_LONG_PRESS then
    [HandlerCall.gui_handle_button_long_press button_id]
  else []

/-- Deliver a sequence of raw button transitions through `buttonCallback`,
in order, collecting the handler calls performed. -/
def dispatchAll (events : List (Nat × button_event_t)) : List HandlerCall :=
  events.flatMap (fun pe => buttonCallback pe.1 pe.2)

/-! ## Lemmas about the shared `system.c` state -/

lemma system_update_currentError (env : UpdateEnv) (s : SysState) :
    ((system_update env s).1).currentError = s.currentError := by
  dsimp only [system_update]
  split <;> rfl

lemma system_update_sysConfig (env : UpdateEnv) (s : SysState) :
    ((system_update env s).1).sysConfig = s.sysConfig := by
  dsimp only [system_update]
  split <;> rfl

lemma runOps_get_error (ops : List SysOp) :
    ∀ s : SysState,
      system_get_error (runOps s ops)
        = (lastReported ops).getD (system_get_error s) := by
  induction ops with
  | nil => intro s; rfl
  | cons op rest ih =>
    intro s
    cases op with
    | op_set_error e =>
      rw [runOps, lastReported, ih]
      cases h : lastReported rest <;>
        simp [h, applyOp, system_set_error, system_get_error]
    | op_update env =>
      rw [runOps, lastReported, ih]
      cases h : lastReported rest <;>
        simp [h, applyOp, system_get_error, system_update_currentError]
      intro e h2
      cases h2

/-- Claim C8: the Fault Channel is last-write-wins state: `system_set_error`
overwrites the process-wide fault code (and drives the LED indicator exactly
when configured), `system_get_error` returns the argument of the most recent
`system_set_error` call — `ERROR_NONE` if there was none — and `system_update`
never clears the fault code. -/
theorem C8_fault_channel_last_write_wins :
    ∀ (config : SystemConfig) (ops : List SysOp) (e : error_code_t)
      (env : UpdateEnv) (s : SysState),
      system_get_error (runOps (initState config) ops)
        = (lastReported ops).getD error_code_t.ERROR_NONE ∧
      ((system_set_error e s).1).currentError = e ∧
      (system_set_error e s).2 = s.sysConfig.enableErrorLed ∧
      ((system_update env s).1).currentError = s.currentError := by
  intro config ops e env s
  refine ⟨?_, rfl, rfl, system_update_currentError env s⟩
  rw [runOps_get_error]
  rfl

/-! ## Lemmas about the button event bridge -/

lemma buttonCallback_length (button_id : Nat) (e : button_event_t) :
    (buttonCallback button_id e).length = 1 := by
  cases e <;> rfl

lemma dispatchAll_length (evs : List (Nat × button_event_t)) :
    (dispatchAll evs).length = evs.length := by
  induction evs with
  | nil => rfl
  | cons pe rest ih =>
    rw [dispatchAll, List.flatMap_cons]
    rw [dispatchAll] at ih
    simp [List.length_append, ih, buttonCallback_length]
    omega

/-- Claim C9: `buttonCallback` maps every delivered button event to exactly
one GUI handler call of the matching kind, with 1:1 fan-out and no
batching or queueing: delivering a sequence of transitions produces exactly
one handler call per transition, and two sequential transitions for the
same button id reach the handler in their physical order. -/
theorem C9_button_bridge_one_to_one :
    ∀ (button_id : Nat) (e1 e2 : button_event_t)
      (pre post : List (Nat × button_event_t)),
      (buttonCallback button_id e1).length = 1 ∧
      buttonCallback button_id button_event_t.BUTTON_PRESSED
        = [HandlerCall.gui_handle_button_press button_id] ∧
      buttonCallback button_id button_event_t.BUTTON_RELEASED
        = [HandlerCall.gui_handle_button_release button_id] ∧
      buttonCallback button_id button_event_t.BUTTON_LONG_PRESS
        = [HandlerCall.gui_handle_button_long_press button_id] ∧
      (dispatchAll pre).length = pre.length ∧
      dispatchAll (pre ++ (button_id, e1) :: (button_id, e2) :: post)
        = dispatchAll pre ++ buttonCallback button_id e1
            ++ (buttonCallback button_id e2 ++ dispatchAll post) := by
  intro button_id e1 e2 pre post
  refine ⟨buttonCallback_length button_id e1, rfl, rfl, rfl,
    dispatchAll_length pre, ?_⟩
  simp [dispatchAll, List.append_assoc]

/-! ## Lemmas about the performance-check window -/

lemma U32_eq : U32 = 4294967296 := by
  norm_num [U32]

lemma msTime_lt_U32 (tickCount : Nat) : msTime tickCount < U32 :=
  Nat.mod_lt _ (by norm_num [U32])

lemma system_update_no_recompute (env : UpdateEnv) (s : SysState)
    (hL : s.lastPerformanceCheck ≤ msTime env.tickCount)
    (hU : msTime env.tickCount
        < s.lastPerformanceCheck + PERFORMANCE_CHECK_INTERVAL) :
    (system_update env s).2.recomputed = false ∧
    ((system_update env s).1).cpuUtilization = s.cpuUtilization ∧
    ((system_update env s).1).lastPerformanceCheck = s.lastPerformanceCheck ∧
    (system_update env s).2.memorySavingFired = false := by
  have h32 := U32_eq
  have hI : PERFORMANCE_CHECK_INTERVAL = 1000 := rfl
  have hc : ¬ ((msTime env.tickCount + U32 - s.lastPerformanceCheck) % U32
      ≥ PERFORMANCE_CHECK_INTERVAL) := by
    have h1 : msTime env.tickCount + U32 - s.lastPerformanceCheck
        = (msTime env.tickCount - s.lastPerformanceCheck) + U32 := by omega
    rw [h1, Nat.add_mod_right,
      Nat.mod_eq_of_lt (show msTime env.tickCount - s.lastPerformanceCheck < U32 by omega)]
    omega
  refine ⟨?_, ?_, ?_, ?_⟩ <;> (dsimp only [system_update]; rw [if_neg hc])

lemma runUpdates_window (envs : List UpdateEnv) :
    ∀ s : SysState,
      (∀ env ∈ envs, s.lastPerformanceCheck ≤ msTime env.tickCount ∧
        msTime env.tickCount
          < s.lastPerformanceCheck + PERFORMANCE_CHECK_INTERVAL) →
      (runUpdates s envs).cpuUtilization = s.cpuUtilization ∧
      (runUpdates s envs).lastPerformanceCheck = s.lastPerformanceCheck ∧
      ∀ ev ∈ updateEvents s envs,
        ev.recomputed = false ∧ ev.memorySavingFired = false := by
  induction envs with
  | nil =>
    intro s _
    exact ⟨rfl, rfl, by intro ev hev; cases hev⟩
  | cons env rest ih =>
    intro s h
    have henv := h env (List.mem_cons_self env rest)
    have hstep := system_update_no_recompute env s henv.1 henv.2
    have hlast : ((system_update env s).1).lastPerformanceCheck
        = s.lastPerformanceCheck := hstep.2.2.1
    have ihtail := ih (system_update env s).1 (by
      intro e he
      rw [hlast]
      exact h e (List.mem_cons_of_mem env he))
    refine ⟨?_, ?_, ?_⟩
    · rw [runUpdates, ihtail.1, hstep.2.1]
    · rw [runUpdates, ihtail.2.1, hlast]
    · intro ev hev
      rw [updateEvents] at hev
      rcases List.mem_cons.mp hev with hhead | htail
      · rw [hhead]
        exact ⟨hstep.1, hstep.2.2.2⟩
      · exact ihtail.2.2 ev htail

/-- Claim C4, counterexample: the claim says all three HealthSnapshot
fields are recomputed at most once per 1000 ms window and read back stale
between recomputations, but `system_update` rewrites `systemUptime` and
`freeHeapSize` on every call.  Concretely: after a recomputation at
t = 1000 ms stored free heap 500, a second call at t = 1010 ms (inside the
same window, hence `recomputed = false`) changes the stored free heap to
700 instead of leaving it stale. -/
theorem C4_counterexample :
    ((system_update (UpdateEnv.mk 1000 500 (CpuEnv.mk true [] 0))
        (initState (SystemConfig.mk 0 0 false false))).2).recomputed = true ∧
    system_get_free_heap
      ((system_update (UpdateEnv.mk 1000 500 (CpuEnv.mk true [] 0))
        (initState (SystemConfig.mk 0 0 false false))).1) = 500 ∧
    ((system_update (UpdateEnv.mk 1010 700 (CpuEnv.mk true [] 0))
        ((system_update (UpdateEnv.mk 1000 500 (CpuEnv.mk true [] 0))
          (initState (SystemConfig.mk 0 0 false false))).1)).2).recomputed
      = false ∧
    system_get_free_heap
      ((system_update (UpdateEnv.mk 1010 700 (CpuEnv.mk true [] 0))
        ((system_update (UpdateEnv.mk 1000 500 (CpuEnv.mk true [] 0))
          (initState (SystemConfig.mk 0 0 false false))).1)).1) = 700 := by
  decide

/-- Claim C4 (amended): only `cpuUtilization` is recomputed at most once
per 1000 ms window and held stale between recomputations — within the
window that starts at `lastPerformanceCheck`, no number of `system_update`
calls recomputes it — while `systemUptime` and `freeHeapSize` are
refreshed on every `system_update` call. -/
theorem C4_health_recompute_window :
    ∀ (s : SysState) (env : UpdateEnv) (envs : List UpdateEnv),
      ((system_update env s).2.recomputed = false →
        ((system_update env s).1).cpuUtilization = s.cpuUtilization) ∧
      ((system_update env s).1).systemUptime = msTime env.tickCount ∧
      ((system_update env s).1).freeHeapSize = env.freeHeap % U32 ∧
      ((∀ e ∈ envs, s.lastPerformanceCheck ≤ msTime e.tickCount ∧
          msTime e.tickCount
            < s.lastPerformanceCheck + PERFORMANCE_CHECK_INTERVAL) →
        (runUpdates s envs).cpuUtilization = s.cpuUtilization ∧
        ∀ ev ∈ updateEvents s envs, ev.recomputed = false) := by
  intro s env envs
  refine ⟨?_, ?_, ?_, ?_⟩
  · intro hrec
    dsimp only [system_update] at hrec ⊢
    split at hrec
    · cases hrec
    · split
      · simp_all
      · rfl
  · dsimp only [system_update]; split <;> rfl
  · dsimp only [system_update]; split <;> rfl
  · intro h
    have hw := runUpdates_window envs s h
    exact ⟨hw.1, fun ev hev => (hw.2.2 ev hev).1⟩

/-- Witness for C4 (amended), at `lastPerformanceCheck = 0`,
a call at t = 20 ms, and a one-call window `[t = 20 ms]`. -/
theorem C4_health_recompute_window_witness :
    ((system_update (UpdateEnv.mk 20 64 (CpuEnv.mk true [] 0))
        (initState (SystemConfig.mk 0 0 false false))).2).recomputed = false ∧
    ((system_update (UpdateEnv.mk 20 64 (CpuEnv.mk true [] 0))
        (initState (SystemConfig.mk 0 0 false false))).1).cpuUtilization
      = (initState (SystemConfig.mk 0 0 false false)).cpuUtilization ∧
    (runUpdates (initState (SystemConfig.mk 0 0 false false))
        [UpdateEnv.mk 20 64 (CpuEnv.mk true [] 0)]).cpuUtilization
      = (initState (SystemConfig.mk 0 0 false false)).cpuUtilization := by
  refine ⟨by decide, ?_, ?_⟩
  · exact (C4_health_recompute_window (initState (SystemConfig.mk 0 0 false false))
      (UpdateEnv.mk 20 64 (CpuEnv.mk true [] 0))
      [UpdateEnv.mk 20 64 (CpuEnv.mk true [] 0)]).1 (by decide)
  · exact ((C4_health_recompute_window (initState (SystemConfig.mk 0 0 false false))
      (UpdateEnv.mk 20 64 (CpuEnv.mk true [] 0))
      [UpdateEnv.mk 20 64 (CpuEnv.mk true [] 0)]).2.2.2 (by decide)).1

/-! ## The low-memory degradation hook -/

lemma system_update_fired_eq (env : UpdateEnv) (s : SysState) :
    (system_update env s).2.memorySavingFired
      = ((system_update env s).2.recomputed
          && decide (env.freeHeap % U32 < s.sysConfig.criticalHeapThreshold)) := by
  dsimp only [system_update]
  split <;> rfl

lemma updateEvents_fired_imp (envs : List UpdateEnv) :
    ∀ s : SysState, ∀ ev ∈ updateEvents s envs,
      ev.memorySavingFired = true → ev.recomputed = true := by
  induction envs with
  | nil => intro s ev hev; cases hev
  | cons env rest ih =>
    intro s ev hev hfired
    rw [updateEvents] at hev
    rcases List.mem_cons.mp hev with hhead | htail
    · rw [hhead] at hfired ⊢
      rw [system_update_fired_eq] at hfired
      exact (Bool.and_eq_true _ _).mp hfired |>.1
    · exact ih (system_update env s).1 ev htail hfired

lemma updateEvents_fired_count (envs : List UpdateEnv) :
    ∀ s : SysState,
      (∀ env ∈ envs, env.freeHeap % U32 < s.sysConfig.criticalHeapThreshold) →
      (updateEvents s envs).countP (fun ev => ev.memorySavingFired)
        = (updateEvents s envs).countP (fun ev => ev.recomputed) := by
  induction envs with
  | nil => intro s _; rfl
  | cons env rest ih =>
    intro s h
    rw [updateEvents, List.countP_cons, List.countP_cons]
    have htail := ih (system_update env s).1 (by
      intro e he
      rw [system_update_sysConfig]
      exact h e (List.mem_cons_of_mem env he))
    rw [htail, system_update_fired_eq,
      decide_eq_true (h env (List.mem_cons_self env rest)), Bool.and_true]

/-- Claim C6: `memory_saving_mode` is invoked by a `system_update` call
exactly when that call performs the once-per-window recomputation and the
fresh free-heap sample is below the configured threshold: it never fires
on a Supervisor tick that does not open a new window, it fires at most
once per call, and while free memory stays below the threshold it fires
on exactly the recomputation calls. -/
theorem C6_memory_hook_fires_per_window :
    ∀ (env : UpdateEnv) (s : SysState) (envs : List UpdateEnv),
      ((system_update env s).2.memorySavingFired
        = ((system_update env s).2.recomputed
            && decide (env.freeHeap % U32 < s.sysConfig.criticalHeapThreshold))) ∧
      (updateEvents s envs).countP (fun ev => ev.memorySavingFired)
        ≤ (updateEvents s envs).countP (fun ev => ev.recomputed) ∧
      ((∀ e ∈ envs, e.freeHeap % U32 < s.sysConfig.criticalHeapThreshold) →
        (updateEvents s envs).countP (fun ev => ev.memorySavingFired)
          = (updateEvents s envs).countP (fun ev => ev.recomputed)) := by
  intro env s envs
  refine ⟨system_update_fired_eq env s, ?_, updateEvents_fired_count envs s⟩
  exact List.countP_mono_left (fun ev hev => updateEvents_fired_imp envs s ev hev)

/-- Witness for C6, with threshold 1000 and a recomputing call whose heap
sample 64 is below it: the hook fires, and the counts agree on the
one-call run. -/
theorem C6_memory_hook_witness :
    ((system_update (UpdateEnv.mk 5000 64 (CpuEnv.mk true [] 0))
        (initState (SystemConfig.mk 0 1000 false false))).2).memorySavingFired
      = true ∧
    (updateEvents (initState (SystemConfig.mk 0 1000 false false))
        [UpdateEnv.mk 5000 64 (CpuEnv.mk true [] 0)]).countP
        (fun ev => ev.memorySavingFired)
      = (updateEvents (initState (SystemConfig.mk 0 1000 false false))
        [UpdateEnv.mk 5000 64 (CpuEnv.mk true [] 0)]).countP
        (fun ev => ev.recomputed) := by
  refine ⟨by decide, ?_⟩
  exact (C6_memory_hook_fires_per_window
    (UpdateEnv.mk 5000 64 (CpuEnv.mk true [] 0))
    (initState (SystemConfig.mk 0 1000 false false))
    [UpdateEnv.mk 5000 64 (CpuEnv.mk true [] 0)]).2.2 (by decide)

/-- Claim C10 (implicit): the statics of `system.c` start with
`cpuUtilization = 0`, and as long as every Supervisor iteration happens
before the first 1000 ms window has elapsed, no recomputation occurs, so
an external reader polling `system_get_cpu_usage` at startup observes 0. -/
theorem C10_initial_cpu_usage_zero :
    ∀ (config : SystemConfig) (envs : List UpdateEnv),
      (∀ env ∈ envs, msTime env.tickCount < PERFORMANCE_CHECK_INTERVAL) →
      system_get_cpu_usage (initState config) = 0 ∧
      system_get_cpu_usage (runUpdates (initState config) envs) = 0 := by
  intro config envs h
  refine ⟨rfl, ?_⟩
  have hw := runUpdates_window envs (initState config) (by
    intro e he
    exact ⟨Nat.zero_le _, h e he⟩)
  exact hw.1

/-- Witness for C10: three Supervisor iterations at 10, 20 and 990 ms. -/
theorem C10_initial_cpu_usage_zero_witness :
    (msTime 10 < PERFORMANCE_CHECK_INTERVAL ∧
      msTime 20 < PERFORMANCE_CHECK_INTERVAL ∧
      msTime 990 < PERFORMANCE_CHECK_INTERVAL) ∧
    system_get_cpu_usage
      (runUpdates (initState (SystemConfig.mk 125000000 4096 true true))
        [UpdateEnv.mk 10 2048 (CpuEnv.mk true [] 0),
         UpdateEnv.mk 20 2048 (CpuEnv.mk true [] 0),
         UpdateEnv.mk 990 2048 (CpuEnv.mk true [] 0)]) = 0 := by
  refine ⟨by decide, ?_⟩
  exact (C10_initial_cpu_usage_zero (SystemConfig.mk 125000000 4096 true true)
    [UpdateEnv.mk 10 2048 (CpuEnv.mk true [] 0),
     UpdateEnv.mk 20 2048 (CpuEnv.mk true [] 0),
     UpdateEnv.mk 990 2048 (CpuEnv.mk true [] 0)] (by decide)).2

/-! ## Lemmas about task action traces and the lock discipline -/

lemma heldAfter_append (xs ys : List Action) :
    ∀ h : List MutexId, heldAfter h (xs ++ ys) = heldAfter (heldAfter h xs) ys := by
  induction xs with
  | nil => intro h; rfl
  | cons a rest ih =>
    intro h
    rw [List.cons_append, heldAfter, heldAfter]
    exact ih (lockStep h a)

lemma length_le_maxHeld (h : List MutexId) (acts : List Action) :
    h.length ≤ maxHeld h acts := by
  cases acts with
  | nil => exact Nat.le_refl _
  | cons a rest => exact le_max_left _ _

lemma heldAfter_length_le_maxHeld (acts : List Action) :
    ∀ h : List MutexId, (heldAfter h acts).length ≤ maxHeld h acts := by
  induction acts with
  | nil => intro h; exact Nat.le_refl _
  | cons a rest ih =>
    intro h
    rw [heldAfter, maxHeld]
    exact le_trans (ih (lockStep h a)) (le_max_right _ _)

lemma maxHeld_append (xs ys : List Action) :
    ∀ h : List MutexId,
      maxHeld h (xs ++ ys) = max (maxHeld h xs) (maxHeld (heldAfter h xs) ys) := by
  induction xs with
  | nil =>
    intro h
    rw [List.nil_append, maxHeld, heldAfter]
    exact (max_eq_right (length_le_maxHeld h ys)).symm
  | cons a rest ih =>
    intro h
    rw [List.cons_append, maxHeld, maxHeld, heldAfter, ih (lockStep h a),
      Nat.max_assoc]

lemma sleepsClear_append (xs ys : List Action) :
    ∀ h : List MutexId,
      sleepsClear h (xs ++ ys)
        = (sleepsClear h xs && sleepsClear (heldAfter h xs) ys) := by
  induction xs with
  | nil =>
    intro h
    rw [List.nil_append, sleepsClear, heldAfter, Bool.true_and]
  | cons a rest ih =>
    intro h
    rw [List.cons_append, sleepsClear, sleepsClear, heldAfter, ih (lockStep h a),
      Bool.and_assoc]

lemma isEmpty_eq_nil {h : List MutexId} (hempty : h.isEmpty = true) : h = [] := by
  cases h with
  | nil => rfl
  | cons a rest => cases hempty

lemma maxHeld_iterate (b : List Action) (hb : maxHeld [] b ≤ 1)
    (hres : heldAfter [] b = []) : ∀ n, maxHeld [] (iterate n b) ≤ 1 := by
  intro n
  induction n with
  | zero => exact Nat.zero_le _
  | succ n ih =>
    show maxHeld [] (b ++ iterate n b) ≤ 1
    rw [maxHeld_append, hres]
    exact max_le hb ih

lemma sleepsClear_iterate (b : List Action) (hb : sleepsClear [] b = true)
    (hres : heldAfter [] b = []) : ∀ n, sleepsClear [] (iterate n b) = true := by
  intro n
  induction n with
  | zero => rfl
  | succ n ih =>
    show sleepsClear [] (b ++ iterate n b) = true
    rw [sleepsClear_append, hres, hb, ih, Bool.and_self]

lemma sleepsClear_decomp (acts : List Action) :
    ∀ (h : List MutexId), sleepsClear h acts = true →
      ∀ (p : List Action) (ms : Nat) (q : List Action),
        acts = p ++ Action.sleep ms :: q → heldAfter h p = [] := by
  induction acts with
  | nil =>
    intro h _ p ms q hpq
    exact absurd hpq (by simp)
  | cons a rest ih =>
    intro h hclear p ms q hpq
    rw [sleepsClear, Bool.and_eq_true] at hclear
    cases p with
    | nil =>
      rw [List.nil_append] at hpq
      injection hpq with ha _
      have hok : sleepOk h a = true := hclear.1
      rw [ha] at hok
      exact isEmpty_eq_nil hok
    | cons b p2 =>
      rw [List.cons_append] at hpq
      injection hpq with hab hr
      rw [heldAfter, ← hab]
      exact ih (lockStep h a) hclear.2 p2 ms q hr

lemma trace_safe_of (tr : List Action) (hmax : maxHeld [] tr ≤ 1)
    (hclear : sleepsClear [] tr = true) :
    (∀ p q : List Action, tr = p ++ q → (heldAfter [] p).length ≤ 1) ∧
    (∀ (p : List Action) (ms : Nat) (q : List Action),
      tr = p ++ Action.sleep ms :: q → heldAfter [] p = []) := by
  constructor
  · intro p q hpq
    subst hpq
    have h1 := heldAfter_length_le_maxHeld p ([] : List MutexId)
    have h2 : maxHeld ([] : List MutexId) p ≤ maxHeld [] (p ++ q) := by
      rw [maxHeld_append]
      exact le_max_left _ _
    omega
  · intro p ms q hpq
    exact sleepsClear_decomp tr [] hclear p ms q hpq

lemma fsTask_maxHeld (sdInit : sd_card_status_t) (fsInit : fs_status_t) (n : Nat) :
    maxHeld [] (fsTask sdInit fsInit n) ≤ 1 := by
  rw [fsTask]
  split
  · decide
  · split
    · decide
    · exact maxHeld_iterate fsLoopBody (by decide) (by decide) n

lemma fsTask_sleepsClear (sdInit : sd_card_status_t) (fsInit : fs_status_t) (n : Nat) :
    sleepsClear [] (fsTask sdInit fsInit n) = true := by
  rw [fsTask]
  split
  · decide
  · split
    · decide
    · exact sleepsClear_iterate fsLoopBody (by decide) (by decide) n

lemma guiTask_maxHeld (displayInit : display_status_t) (n : Nat) :
    maxHeld [] (guiTask displayInit n) ≤ 1 := by
  rw [guiTask]
  split
  · decide
  · rw [show (Action.gui_init_call :: iterate n guiLoopBody)
        = [Action.gui_init_call] ++ iterate n guiLoopBody from rfl,
      maxHeld_append]
    exact max_le (by decide) (maxHeld_iterate guiLoopBody (by decide) (by decide) n)

lemma guiTask_sleepsClear (displayInit : display_status_t) (n : Nat) :
    sleepsClear [] (guiTask displayInit n) = true := by
  rw [guiTask]
  split
  · decide
  · rw [show (Action.gui_init_call :: iterate n guiLoopBody)
        = [Action.gui_init_call] ++ iterate n guiLoopBody from rfl,
      sleepsClear_append,
      show heldAfter ([] : List MutexId) [Action.gui_init_call] = [] from rfl,
      sleepsClear_iterate guiLoopBody (by decide) (by decide) n]
    decide

lemma audioTask_maxHeld (audioInit : audio_status_t) (n : Nat) :
    maxHeld [] (audioTask audioInit n) ≤ 1 := by
  rw [audioTask]
  split
  · decide
  · exact maxHeld_iterate audioLoopBody (by decide) (by decide) n

lemma audioTask_sleepsClear (audioInit : audio_status_t) (n : Nat) :
    sleepsClear [] (audioTask audioInit n) = true := by
  rw [audioTask]
  split
  · decide
  · exact sleepsClear_iterate audioLoopBody (by decide) (by decide) n

lemma systemTaskActs_maxHeld (n : Nat) : maxHeld [] (systemTaskActs n) ≤ 1 := by
  rw [systemTaskActs,
    show (Action.system_init_call :: iterate n systemLoopBody)
      = [Action.system_init_call] ++ iterate n systemLoopBody from rfl,
    maxHeld_append]
  exact max_le (by decide) (maxHeld_iterate systemLoopBody (by decide) (by decide) n)

lemma systemTaskActs_sleepsClear (n : Nat) :
    sleepsClear [] (systemTaskActs n) = true := by
  rw [systemTaskActs,
    show (Action.system_init_call :: iterate n systemLoopBody)
      = [Action.system_init_call] ++ iterate n systemLoopBody from rfl,
    sleepsClear_append,
    show heldAfter ([] : List MutexId) [Action.system_init_call] = [] from rfl,
    sleepsClear_iterate systemLoopBody (by decide) (by decide) n]
  decide

/-- Claim C3: along every finite observation of any of the four `main.c`
task bodies — for any bring-up outcomes and any number of loop
iterations — the task never holds more than one of the three peripheral
mutexes at any point of the trace, and at every `vTaskDelay` (the
end-of-iteration sleep) it holds none: the lock taken for a service tick
is released before the sleep. -/
theorem C3_lock_discipline :
    ∀ tr : List Action,
      ((∃ sdInit fsInit n, tr = fsTask sdInit fsInit n) ∨
       (∃ displayInit n, tr = guiTask displayInit n) ∨
       (∃ audioInit n, tr = audioTask audioInit n) ∨
       (∃ n, tr = systemTaskActs n)) →
      (∀ p q : List Action, tr = p ++ q → (heldAfter [] p).length ≤ 1) ∧
      (∀ (p : List Action) (ms : Nat) (q : List Action),
        tr = p ++ Action.sleep ms :: q → heldAfter [] p = []) := by
  rintro tr (⟨sdInit, fsInit, n, rfl⟩ | ⟨displayInit, n, rfl⟩ |
    ⟨audioInit, n, rfl⟩ | ⟨n, rfl⟩)
  · exact trace_safe_of _ (fsTask_maxHeld sdInit fsInit n)
      (fsTask_sleepsClear sdInit fsInit n)
  · exact trace_safe_of _ (guiTask_maxHeld displayInit n)
      (guiTask_sleepsClear displayInit n)
  · exact trace_safe_of _ (audioTask_maxHeld audioInit n)
      (audioTask_sleepsClear audioInit n)
  · exact trace_safe_of _ (systemTaskActs_maxHeld n) (systemTaskActs_sleepsClear n)

/-- Witness for C3: one iteration of the healthy Storage task, split right
after its `xSemaphoreTake`, where exactly the SD-card mutex is held, and
split at its `vTaskDelay`, where nothing is held. -/
theorem C3_lock_discipline_witness :
    (fsTask sd_card_status_t.SD_CARD_OK fs_status_t.FS_OK 1
      = [Action.take MutexId.sdCardMutex]
        ++ [Action.fs_update, Action.give MutexId.sdCardMutex, Action.sleep 50]) ∧
    (heldAfter [] [Action.take MutexId.sdCardMutex]).length ≤ 1 ∧
    (fsTask sd_card_status_t.SD_CARD_OK fs_status_t.FS_OK 1
      = [Action.take MutexId.sdCardMutex, Action.fs_update,
         Action.give MutexId.sdCardMutex] ++ Action.sleep 50 :: []) ∧
    heldAfter [] [Action.take MutexId.sdCardMutex, Action.fs_update,
      Action.give MutexId.sdCardMutex] = [] := by
  have hsafe := C3_lock_discipline
    (fsTask sd_card_status_t.SD_CARD_OK fs_status_t.FS_OK 1)
    (Or.inl ⟨sd_card_status_t.SD_CARD_OK, fs_status_t.FS_OK, 1, rfl⟩)
  refine ⟨by decide, ?_, by decide, ?_⟩
  · exact hsafe.1 [Action.take MutexId.sdCardMutex]
      [Action.fs_update, Action.give MutexId.sdCardMutex, Action.sleep 50]
      (by decide)
  · exact hsafe.2 [Action.take MutexId.sdCardMutex, Action.fs_update,
      Action.give MutexId.sdCardMutex] 50 [] (by decide)

/-- Claim C1: when `sd_card_init` fails, `fsTask` reports
`ERROR_FS_INIT_FAILED` (never `ERROR_FS_MOUNT_FAILED`) and terminates with
`vTaskDelete` before any `fs_update` service tick, however long the system
is observed; when `sd_card_init` succeeds and `fs_init` fails, it reports
`ERROR_FS_MOUNT_FAILED` and likewise terminates without a service tick. -/
theorem C1_storage_bringup_faults :
    ∀ (sdInit : sd_card_status_t) (fsInit : fs_status_t) (n : Nat)
      (e0 : error_code_t),
      (sdInit ≠ sd_card_status_t.SD_CARD_OK →
        fsTask sdInit fsInit n
          = [Action.set_error error_code_t.ERROR_FS_INIT_FAILED,
             Action.taskDelete] ∧
        errorAfter e0 (fsTask sdInit fsInit n)
          = error_code_t.ERROR_FS_INIT_FAILED ∧
        Action.set_error error_code_t.ERROR_FS_MOUNT_FAILED
          ∉ fsTask sdInit fsInit n ∧
        (fsTask sdInit fsInit n).count Action.fs_update = 0) ∧
      (sdInit = sd_card_status_t.SD_CARD_OK → fsInit ≠ fs_status_t.FS_OK →
        fsTask sdInit fsInit n
          = [Action.set_error error_code_t.ERROR_FS_MOUNT_FAILED,
             Action.taskDelete] ∧
        errorAfter e0 (fsTask sdInit fsInit n)
          = error_code_t.ERROR_FS_MOUNT_FAILED ∧
        (fsTask sdInit fsInit n).count Action.fs_update = 0) := by
  intro sdInit fsInit n e0
  constructor
  · intro hsd
    rw [fsTask, if_pos hsd]
    exact ⟨rfl, rfl, by decide, rfl⟩
  · intro hsd hfs
    rw [fsTask, if_neg (by simp [hsd]), if_pos hfs]
    exact ⟨rfl, rfl, rfl⟩

/-- Witness for C1: SD-card bring-up failure `SD_CARD_ERROR_INIT` with a
mountable filesystem, observed for 3 loop iterations, starting fault-free;
and mount failure `FS_ERROR_MOUNT` after a successful SD-card bring-up. -/
theorem C1_storage_bringup_faults_witness :
    (sd_card_status_t.SD_CARD_ERROR_INIT ≠ sd_card_status_t.SD_CARD_OK ∧
      errorAfter error_code_t.ERROR_NONE
        (fsTask sd_card_status_t.SD_CARD_ERROR_INIT fs_status_t.FS_OK 3)
        = error_code_t.ERROR_FS_INIT_FAILED ∧
      (fsTask sd_card_status_t.SD_CARD_ERROR_INIT fs_status_t.FS_OK 3).count
        Action.fs_update = 0) ∧
    (fs_status_t.FS_ERROR_MOUNT ≠ fs_status_t.FS_OK ∧
      errorAfter error_code_t.ERROR_NONE
        (fsTask sd_card_status_t.SD_CARD_OK fs_status_t.FS_ERROR_MOUNT 3)
        = error_code_t.ERROR_FS_MOUNT_FAILED) := by
  have h1 := (C1_storage_bringup_faults sd_card_status_t.SD_CARD_ERROR_INIT
    fs_status_t.FS_OK 3 error_code_t.ERROR_NONE).1 (by decide)
  have h2 := (C1_storage_bringup_faults sd_card_status_t.SD_CARD_OK
    fs_status_t.FS_ERROR_MOUNT 3 error_code_t.ERROR_NONE).2 rfl (by decide)
  exact ⟨⟨by decide, h1.2.1, h1.2.2.2⟩, ⟨by decide, h2.2.1⟩⟩

/-- Claim C7: a failed `display_init` or `audio_init` makes the owning task
terminate silently — its whole trace is the single `vTaskDelete`, and the
fault code is left untouched — and neither outcome can influence the
Supervisor or Storage task: their traces depend only on their own inputs,
so they are identical across boot environments that agree on the SD-card
and filesystem results. -/
theorem C7_optional_subsystem_silent :
    ∀ (benv benv2 : BootEnv) (n : Nat) (e0 : error_code_t),
      (benv.display_init_result ≠ display_status_t.DISPLAY_OK →
        guiTaskRun benv n = [Action.taskDelete] ∧
        errorAfter e0 (guiTaskRun benv n) = e0) ∧
      (benv.audio_init_result ≠ audio_status_t.AUDIO_OK →
        audioTaskRun benv n = [Action.taskDelete] ∧
        errorAfter e0 (audioTaskRun benv n) = e0) ∧
      (benv.sd_card_init_result = benv2.sd_card_init_result →
        benv.fs_init_result = benv2.fs_init_result →
        fsTaskRun benv n = fsTaskRun benv2 n) ∧
      systemTaskRun benv n = systemTaskRun benv2 n := by
  intro benv benv2 n e0
  refine ⟨?_, ?_, ?_, rfl⟩
  · intro hd
    rw [guiTaskRun, guiTask, if_pos hd]
    exact ⟨rfl, rfl⟩
  · intro ha
    rw [audioTaskRun, audioTask, if_pos ha]
    exact ⟨rfl, rfl⟩
  · intro hsd hfs
    rw [fsTaskRun, fsTaskRun, hsd, hfs]

/-- Witness for C7: display and audio both fail to bring up while the
storage side works; the optional tasks just delete themselves, the fault
code stays `ERROR_NONE`, and the Storage trace matches the one from a boot
where display and audio succeeded. -/
theorem C7_optional_subsystem_silent_witness :
    (display_status_t.DISPLAY_ERROR_NO_DEVICE ≠ display_status_t.DISPLAY_OK ∧
      audio_status_t.AUDIO_ERROR_INIT ≠ audio_status_t.AUDIO_OK) ∧
    guiTaskRun (BootEnv.mk sd_card_status_t.SD_CARD_OK fs_status_t.FS_OK
        display_status_t.DISPLAY_ERROR_NO_DEVICE audio_status_t.AUDIO_ERROR_INIT) 2
      = [Action.taskDelete] ∧
    errorAfter error_code_t.ERROR_NONE
      (audioTaskRun (BootEnv.mk sd_card_status_t.SD_CARD_OK fs_status_t.FS_OK
        display_status_t.DISPLAY_ERROR_NO_DEVICE audio_status_t.AUDIO_ERROR_INIT) 2)
      = error_code_t.ERROR_NONE ∧
    fsTaskRun (BootEnv.mk sd_card_status_t.SD_CARD_OK fs_status_t.FS_OK
        display_status_t.DISPLAY_ERROR_NO_DEVICE audio_status_t.AUDIO_ERROR_INIT) 2
      = fsTaskRun (BootEnv.mk sd_card_status_t.SD_CARD_OK fs_status_t.FS_OK
        display_status_t.DISPLAY_OK audio_status_t.AUDIO_OK) 2 := by
  have h := C7_optional_subsystem_silent
    (BootEnv.mk sd_card_status_t.SD_CARD_OK fs_status_t.FS_OK
      display_status_t.DISPLAY_ERROR_NO_DEVICE audio_status_t.AUDIO_ERROR_INIT)
    (BootEnv.mk sd_card_status_t.SD_CARD_OK fs_status_t.FS_OK
      display_status_t.DISPLAY_OK audio_status_t.AUDIO_OK)
    2 error_code_t.ERROR_NONE
  exact ⟨⟨by decide, by decide⟩, (h.1 (by decide)).1, (h.2.1 (by decide)).2,
    h.2.2.1 rfl rfl⟩

/-! ## Lemmas about `calculate_cpu_usage` -/

lemma wrap_sub_eq (q : Nat) (hq : q ≤ 100) : (100 + U32 - q) % U32 % 256 = 100 - q := by
  have hU := U32_eq
  have h5 : 100 + U32 - q = (100 - q) + U32 := by omega
  have h6 : (100 - q) % U32 = 100 - q := Nat.mod_eq_of_lt (by omega)
  have h7 : (100 - q) % 256 = 100 - q := Nat.mod_eq_of_lt (by omega)
  rw [h5, Nat.add_mod_right, h6, h7]

lemma wrap_sub_le (q : Nat) (hq : q ≤ 100) : (100 + U32 - q) % U32 % 256 ≤ 100 := by
  rw [wrap_sub_eq q hq]
  omega

lemma idleUtilization_le (total : Nat) (htot : 0 < total) :
    ∀ tasks : List TaskStatus_t,
      (∀ t ∈ tasks, t.ulRunTimeCounter ≤ total) →
      idleUtilization total tasks ≤ 100 := by
  intro tasks
  induction tasks with
  | nil => intro _; exact Nat.zero_le _
  | cons t rest ih =>
    intro h
    rw [idleUtilization]
    split
    · have hle : t.ulRunTimeCounter * 100 % U32 ≤ total * 100 := by
        have h1 : t.ulRunTimeCounter * 100 % U32 ≤ t.ulRunTimeCounter * 100 :=
          Nat.mod_le _ _
        have h2 : t.ulRunTimeCounter * 100 ≤ total * 100 :=
          Nat.mul_le_mul_right 100 (h t (List.mem_cons_self t rest))
        omega
      have h3 : t.ulRunTimeCounter * 100 % U32 / total ≤ total * 100 / total :=
        Nat.div_le_div_right hle
      have h4 : total * 100 / total = 100 := Nat.mul_div_cancel_left 100 htot
      exact wrap_sub_le _ (by omega)
    · exact ih (fun v hv => h v (List.mem_cons_of_mem t hv))

lemma idleUtilization_first_idle (total : Nat) (pre : List TaskStatus_t)
    (t : TaskStatus_t) (post : List TaskStatus_t)
    (hpre : ∀ u ∈ pre, u.pcTaskName ≠ "IDLE") (ht : t.pcTaskName = "IDLE") :
    idleUtilization total (pre ++ t :: post)
      = (100 + U32 - t.ulRunTimeCounter * 100 % U32 / total) % U32 % 256 := by
  induction pre with
  | nil =>
    rw [List.nil_append, idleUtilization, if_pos ht]
  | cons u rest ih =>
    rw [List.cons_append, idleUtilization,
      if_neg (hpre u (List.mem_cons_self u rest))]
    exact ih (fun v hv => hpre v (List.mem_cons_of_mem u hv))

lemma idleUtilization_no_idle (total : Nat) :
    ∀ tasks : List TaskStatus_t,
      (∀ t ∈ tasks, t.pcTaskName ≠ "IDLE") → idleUtilization total tasks = 0 := by
  intro tasks
  induction tasks with
  | nil => intro _; rfl
  | cons t rest ih =>
    intro h
    rw [idleUtilization, if_neg (h t (List.mem_cons_self t rest))]
    exact ih (fun v hv => h v (List.mem_cons_of_mem t hv))

/-- Claim C5: under the scheduler invariant that no task's runtime counter
exceeds `ulTotalRunTime`, every `calculate_cpu_usage` result lies in
[0,100] (it is a `Nat`, so only the upper bound needs proof); when the
status-array allocation fails, the total runtime is 0, or no task is named
"IDLE", it reports 0 rather than failing; and when the first "IDLE" entry
is found (and the `uint32_t` multiply does not wrap) the result is exactly
`100 - idleTime * 100 / ulTotalRunTime`, the idle share subtracted from
100. -/
theorem C5_cpu_usage_in_range :
    ∀ env : CpuEnv,
      ((∀ t ∈ env.tasks, t.ulRunTimeCounter ≤ env.ulTotalRunTime) →
        calculate_cpu_usage env ≤ 100) ∧
      (env.allocOk = false → calculate_cpu_usage env = 0) ∧
      (env.ulTotalRunTime = 0 → calculate_cpu_usage env = 0) ∧
      ((∀ t ∈ env.tasks, t.pcTaskName ≠ "IDLE") → calculate_cpu_usage env = 0) ∧
      (∀ (pre : List TaskStatus_t) (t : TaskStatus_t) (post : List TaskStatus_t),
        env.allocOk = true → 0 < env.ulTotalRunTime →
        env.tasks = pre ++ t :: post →
        (∀ u ∈ pre, u.pcTaskName ≠ "IDLE") → t.pcTaskName = "IDLE" →
        t.ulRunTimeCounter ≤ env.ulTotalRunTime →
        t.ulRunTimeCounter * 100 < U32 →
        calculate_cpu_usage env
          = 100 - t.ulRunTimeCounter * 100 / env.ulTotalRunTime) := by
  intro env
  refine ⟨?_, ?_, ?_, ?_, ?_⟩
  · intro h
    rw [calculate_cpu_usage]
    split
    · split
      · next htot => exact idleUtilization_le env.ulTotalRunTime htot env.tasks h
      · exact Nat.zero_le _
    · exact Nat.zero_le _
  · intro hfalse
    simp [calculate_cpu_usage, hfalse]
  · intro h0
    simp [calculate_cpu_usage, h0]
  · intro h
    rw [calculate_cpu_usage]
    split
    · split
      · exact idleUtilization_no_idle env.ulTotalRunTime env.tasks h
      · rfl
    · rfl
  · intro pre t post halloc htot htasks hpre ht hle hnover
    rw [calculate_cpu_usage, if_pos halloc, if_pos htot, htasks,
      idleUtilization_first_idle env.ulTotalRunTime pre t post hpre ht,
      Nat.mod_eq_of_lt hnover]
    have h3 : t.ulRunTimeCounter * 100 / env.ulTotalRunTime
        ≤ env.ulTotalRunTime * 100 / env.ulTotalRunTime :=
      Nat.div_le_div_right (Nat.mul_le_mul_right 100 hle)
    have h4 : env.ulTotalRunTime * 100 / env.ulTotalRunTime = 100 :=
      Nat.mul_div_cancel_left 100 htot
    exact wrap_sub_eq _ (by omega)

/-- Witness for C5: an "IDLE" task with 75 of 100 runtime units alongside
"SYS" with 25: the result is bounded by 100 and equals the idle share
subtracted from 100 (25%). -/
theorem C5_cpu_usage_in_range_witness :
    (∀ t ∈ [TaskStatus_t.mk "IDLE" 75, TaskStatus_t.mk "SYS" 25],
      t.ulRunTimeCounter ≤ 100) ∧
    calculate_cpu_usage
      (CpuEnv.mk true [TaskStatus_t.mk "IDLE" 75, TaskStatus_t.mk "SYS" 25] 100)
      ≤ 100 ∧
    calculate_cpu_usage
      (CpuEnv.mk true [TaskStatus_t.mk "IDLE" 75, TaskStatus_t.mk "SYS" 25] 100)
      = 100 - 75 * 100 / 100 := by
  refine ⟨by decide, ?_, ?_⟩
  · exact (C5_cpu_usage_in_range
      (CpuEnv.mk true [TaskStatus_t.mk "IDLE" 75, TaskStatus_t.mk "SYS" 25] 100)).1
      (by decide)
  · exact (C5_cpu_usage_in_range
      (CpuEnv.mk true [TaskStatus_t.mk "IDLE" 75, TaskStatus_t.mk "SYS" 25] 100)).2.2.2.2
      [] (TaskStatus_t.mk "IDLE" 75) [TaskStatus_t.mk "SYS" 25]
      rfl (by decide) rfl (by decide) rfl (by decide) (by decide)

/-! ## The clock bring-up failure path -/

lemma initialize_clocks_always_succeeds (config : SystemConfig) :
    initialize_clocks config = 1 :=
  rfl

/-- Claim C2, counterexample: even when the clock programming fails
(`clocks_result = 0`, so `system_init` returns -1), the system does not
halt: `systemTask` in `main.c` discards the `system_init` return value and
enters its service loop anyway, so one Supervisor iteration at t = 42 ms
executes `system_update` and advances the uptime to 42 — forward
progress after the supposed fatal condition. -/
theorem C2_counterexample :
    (system_init 0 (SystemConfig.mk 0 0 false false)
        (initState (SystemConfig.mk 0 0 false false))).2 = -1 ∧
    (systemTask 0 (SystemConfig.mk 0 0 false false)
        [UpdateEnv.mk 42 0 (CpuEnv.mk true [] 0)]
        (initState (SystemConfig.mk 0 0 false false))).2 = 1 ∧
    system_get_uptime
      (systemTask 0 (SystemConfig.mk 0 0 false false)
        [UpdateEnv.mk 42 0 (CpuEnv.mk true [] 0)]
        (initState (SystemConfig.mk 0 0 false false))).1 = 42 := by
  decide

/-- Claim C2 (amended): clock-programming failure is reported, not fatal:
`system_init` returns -1 on clock failure, but `systemTask` ignores that
return value, so the Supervisor runs exactly as many `system_update` calls
as in the success case and reaches the identical state; moreover the
shipped `initialize_clocks` stub cannot fail at all (it always returns
1). -/
theorem C2_clock_failure_not_fatal :
    ∀ (config : SystemConfig) (s : SysState) (envs : List UpdateEnv),
      (system_init 0 config s).2 = -1 ∧
      initialize_clocks config = 1 ∧
      (systemTask 0 config envs s).1 = (systemTask 1 config envs s).1 ∧
      (systemTask 0 config envs s).2 = envs.length := by
  intro config s envs
  exact ⟨rfl, rfl, rfl, rfl⟩

end PIcoOS
